import Mathlib

/-!
Verification development for the nutrigo ingredient-resolution core
(`core/ingredient.py`): the `Ingredient` class (construction, weight
resolution, nutrient calculation) and the two aggregation functions
`calculate_total_nutrition` and `calculate_serving_nutrition`.

Numbers: Python floats and DB decimals are modelled as rationals (ℚ);
`round(v, 2)` is modelled by `round2` below.  Python `round` resolves exact
ties to the even digit while Mathlib `round` resolves them upward; no
property proved here evaluates `round` at an exact tie on differing sides,
and the same `round2` is used uniformly for the code model and for the
specification formulas, so the tie rule is immaterial.

External collaborators (`search.parse_ingredient`, `search.match_one_food`,
`search.match_one_weight`, the `utils.unit_to_grams` table, and the Django
ORM of `models.py` are not part of the analysed sources) are modelled as an
explicit environment record `Env`, faithful to the collaborator contracts
stated by the specification.
-/

namespace Nutrigo

/-- Python `round(v, 2)`: round to the nearest multiple of 1/100.  Stated
with the executable `Rat.floor`; `round2_eq_round` below identifies it with
rounding `q * 100` to the nearest integer. -/
def round2 (q : ℚ) : ℚ := (((q * 100 + 1 / 2).floor : ℤ) : ℚ) / 100

/-- A `core.models.FoodWeight` row: `amount` is the reference amount
(e.g. 1 for "1 slice"), `weight` the corresponding grams. -/
structure FoodWeight where
  seq : Int
  amount : ℚ
  desc : String
  weight : ℚ
deriving Repr, DecidableEq

/-- A `core.models.FoodNutrition` row: nutrient `value` per 100 g. -/
structure FoodNutrition where
  tagname : String
  value : ℚ
deriving Repr, DecidableEq

/-- A `core.models.Food` row together with its related `FoodWeight` and
`FoodNutrition` rows (the querysets `food.weight` and `food.nutrition`). -/
structure Food where
  desc_long : String
  weights : List FoodWeight
  nutrition : List FoodNutrition
deriving Repr, DecidableEq

/-- The context argument stored in the first slot of a raised
`IngredientError`: the source passes the raw text at one raise site and the
matched `Food` object at the other. -/
inductive ErrCtx where
  | text (s : String)
  | food (f : Food)
deriving Repr, DecidableEq

/-- The exceptions the modelled code can raise: `IngredientError(ctx, msg)`
from `core/ingredient.py`, plus the builtin Python exceptions reachable in
it: `KeyError` from a dict subscript with a missing key, `AttributeError`
from attribute access on `None`, `ZeroDivisionError` from division by zero. -/
inductive PyError where
  | ingredientError (to_parse : ErrCtx) (message : String)
  | keyError (key : String)
  | attributeError (message : String)
  | zeroDivisionError
deriving Repr, DecidableEq

/-- Extracts the original raw input text from an error, when the error
carries it in its context slot. -/
def error_raw_text (e : PyError) : Option String :=
  match e with
  | .ingredientError (.text s) _ => some s
  | _ => none

/-- The structured fields produced by the external text parser
(`search.parse_ingredient`), per the ParsedText contract of the
specification. -/
structure Parsed where
  amount : ℚ
  unit : String
  measurement : String
  name : String
deriving Repr, DecidableEq

/-- Modelled from the spec: the external collaborators of
`core/ingredient.py` whose modules (`core/search.py`, `core/utils.py`) are
not part of the analysed sources — the text parser, the food matcher, the
weight-entry matcher, and the Unit Table `unit_to_grams` (a fixed mapping
from unit symbol to grams per unit; a Python dict subscript on it returns
`some` on a present key and raises `KeyError` on a missing one, modelled by
`Option`). -/
structure Env where
  parse_ingredient : String → Parsed
  match_one_food : String → Option Food
  match_one_weight : Food → String → Option FoodWeight
  unit_to_grams : String → Option ℚ

/-- A fully constructed `Ingredient` object: the fields assigned by
`Ingredient.__init__` (weight in grams, computed once). -/
structure Ingredient where
  amount : ℚ
  unit : String
  measurement : String
  name : String
  matched_food : Food
  weight : ℚ
deriving Repr, DecidableEq

/-- The method `Ingredient.get_weight`: raises `IngredientError` —
with the matched food, not the raw text, in the context slot — when the
food has no `FoodWeight` rows ("This food doesn't have any FoodWeight
objects." in the source; string transcribed without the apostrophe
character); otherwise scales the matched weight entry proportionally.
When `search.match_one_weight` finds no entry the source dereferences
`None` and an `AttributeError` propagates (the unguarded path noted by the
specification). -/
def get_weight (env : Env) (matched_food : Food) (measurement : String)
    (amount : ℚ) : Except PyError ℚ :=
  if matched_food.weights = [] then
    .error (.ingredientError (.food matched_food)
      "This food does not have any FoodWeight objects.")
  else
    match env.match_one_weight matched_food measurement with
    | none => .error (.attributeError "NoneType object has no attribute weight")
    | some matched_weight =>
        .ok (matched_weight.weight * (amount / matched_weight.amount))

/-- The constructor `Ingredient.__init__`: parse, match a food (raising
`IngredientError` with the raw text when none matches; "Couldn't match a
food object." in the source, transcribed without the apostrophe character),
then resolve weight by explicit unit conversion when the parsed unit is
non-empty (Python string truthiness) and by `get_weight` otherwise. -/
def Ingredient.construct (env : Env) (to_parse : String) :
    Except PyError Ingredient :=
  let p := env.parse_ingredient to_parse
  match env.match_one_food p.name with
  | none => .error (.ingredientError (.text to_parse) "Could not match a food object.")
  | some matched_food =>
      if p.unit ≠ "" then
        match env.unit_to_grams p.unit with
        | none => .error (.keyError p.unit)
        | some grams =>
            .ok { amount := p.amount, unit := p.unit,
                  measurement := p.measurement, name := p.name,
                  matched_food := matched_food, weight := p.amount * grams }
      else
        match get_weight env matched_food p.measurement p.amount with
        | .error e => .error e
        | .ok w =>
            .ok { amount := p.amount, unit := p.unit,
                  measurement := p.measurement, name := p.name,
                  matched_food := matched_food, weight := w }

/-- Modelled from the spec: the Django accessor
`matched_food.nutrition.get(tagname=tagname)` of
`Ingredient.get_nutrient_by_tagname` returns the unique matching row or
signals absence (`DoesNotExist`, which the caller catches and turns into
`None`); the data model guarantees at most one nutrient entry per tagname
per food, so the unique row is the first match. -/
def Ingredient.get_nutrient_by_tagname (i : Ingredient) (tagname : String) :
    Option FoodNutrition :=
  i.matched_food.nutrition.find? (fun n => n.tagname == tagname)

/-- The method `Ingredient.calc_nutrient`: `None` when the food has no
entry for the tagname, otherwise the per-100g value scaled to the
ingredient weight. -/
def Ingredient.calc_nutrient (i : Ingredient) (tagname : String) : Option ℚ :=
  match i.get_nutrient_by_tagname tagname with
  | none => none
  | some nutrient => some (nutrient.value / 100 * i.weight)

/-- The keys of the `total_nutrition` dict literal of
`calculate_total_nutrition`, in their insertion (hence iteration) order. -/
def reported_keys : List String :=
  ["ENERGY", "FAT", "PROTEIN", "CARB", "SUGAR", "CHOLE", "SODIUM", "POTAS", "FIBER"]

/-- The `to_tagname` dict of `calculate_total_nutrition`, as an association
list in insertion order. -/
def to_tagname : List (String × String) :=
  [("ENERGY", "ENERC_KCAL"), ("FAT", "FAT"), ("PROTEIN", "PROCNT"),
   ("CARB", "CHOCDF"), ("FAT_SAT", "FASAT"), ("FAT_POLY", "FAPU"),
   ("FAT_MONO", "FAMS"), ("SUGAR", "SUGAR"), ("CHOLE", "CHOLE"),
   ("SODIUM", "NA"), ("POTAS", "K"), ("FIBER", "FIBTG")]

/-- The `units` dict of `calculate_total_nutrition`, as an association list
in insertion order. -/
def units_table : List (String × String) :=
  [("ENERGY", "kcal"), ("FAT", "g"), ("PROTEIN", "g"), ("CARB", "g"),
   ("FAT_KCAL", "kcal"), ("PROTEIN_KCAL", "kcal"), ("CARB_KCAL", "kcal"),
   ("FAT_SAT", "g"), ("FAT_POLY", "g"), ("FAT_MONO", "g"), ("SUGAR", "g"),
   ("CHOLE", "mg"), ("SODIUM", "mg"), ("POTAS", "mg"), ("FIBER", "g")]

/-- Python dict lookup `m[k]` on a string-to-string dict, as `Option`
(`none` would raise `KeyError`; every lookup the aggregation loop performs
is on a present key). -/
def dict_lookup (m : List (String × String)) (k : String) : Option String :=
  (m.find? (fun e => e.1 == k)).map (fun e => e.2)

/-- Python truthiness of `calculated` in the aggregation loop: `None` is
falsy, and so is the float `0.0`. -/
def truthy_float (c : Option ℚ) : Bool :=
  match c with
  | none => false
  | some v => !(v == 0)

/-- One execution of the guarded accumulation
`if calculated: total_nutrition[n] += calculated`. -/
def add_if_truthy (acc : ℚ) (c : Option ℚ) : ℚ :=
  if truthy_float c then acc + c.getD 0 else acc

/-- One iteration of the outer loop of `calculate_total_nutrition`: for one
ingredient, update every entry of the `total_nutrition` dict (the inner
loop over its keys, which a dict update never adds to or reorders). -/
def accumulate_ingredient (acc : List (String × ℚ)) (i : Ingredient) :
    List (String × ℚ) :=
  acc.map (fun kv =>
    (kv.1, add_if_truthy kv.2 (i.calc_nutrient ((dict_lookup to_tagname kv.1).getD ""))))

/-- The function `calculate_total_nutrition`: initialise every reported key
to 0, run the guarded double loop, then round each value to 2 decimals and
pair it with its unit.  The result is the dict as an association list in
key-insertion order. -/
def calculate_total_nutrition (ingredients : List Ingredient) :
    List (String × ℚ × String) :=
  let total0 := reported_keys.map (fun k => (k, (0 : ℚ)))
  let total := ingredients.foldl accumulate_ingredient total0
  total.map (fun kv => (kv.1, round2 kv.2, (dict_lookup units_table kv.1).getD ""))

/-- The function `calculate_serving_nutrition`: the dict comprehension
`\x7bk: (round(t[0] / servings, 2), t[1]) ...\x7d`.  Python division by the
int `servings` raises `ZeroDivisionError` when `servings == 0` (at the
first evaluated entry), modelled by `Except`. -/
def calculate_serving_nutrition (total_nutrition : List (String × ℚ × String))
    (servings : ℤ) : Except PyError (List (String × ℚ × String)) :=
  total_nutrition.mapM (fun kt =>
    if servings = 0 then .error .zeroDivisionError
    else .ok (kt.1, round2 (kt.2.1 / (servings : ℚ)), kt.2.2))

/-- The unguarded aggregation the specification describes: for each
reported key, sum the nutrient contributions over all ingredients treating
an absent value as 0 (no truthiness skip). -/
def sum_nutrient (ingredients : List Ingredient) (tagname : String) : ℚ :=
  ingredients.foldl (fun acc i => acc + (i.calc_nutrient tagname).getD 0) 0

/-- The unguarded totals computation, following the words of the
specification: per reported key, the rounded unguarded sum paired with the
fixed unit.  To be compared with `calculate_total_nutrition`. -/
def calculate_total_nutrition_unguarded (ingredients : List Ingredient) :
    List (String × ℚ × String) :=
  reported_keys.map (fun k =>
    (k, round2 (sum_nutrient ingredients ((dict_lookup to_tagname k).getD "")),
     (dict_lookup units_table k).getD ""))

/-! Concrete fixtures: foods, ingredients and environments used to
instantiate the general theorems and to separate behaviors. -/

/-- A food with nutrient rows and no weight rows, mirroring the docstring
example of the `Ingredient` class. -/
def chicken_food : Food :=
  { desc_long := "Chicken, broilers or fryers, breast, meat and skin, raw",
    weights := [],
    nutrition := [⟨"ENERC_KCAL", 172⟩, ⟨"PROCNT", 2085/100⟩, ⟨"FAT", 925/100⟩] }

/-- A food with one weight row: 1 slice weighs 28 g. -/
def bread_food : Food :=
  { desc_long := "Bread",
    weights := [⟨1, 1, "slice", 28⟩],
    nutrition := [] }

/-- A food with no weight rows at all. -/
def bread_food_nw : Food :=
  { desc_long := "Bread with no weight rows", weights := [], nutrition := [] }

/-- A food with a single nutrient row: 172 kcal per 100 g. -/
def energy_food : Food :=
  { desc_long := "Energy only", weights := [],
    nutrition := [⟨"ENERC_KCAL", 172⟩] }

/-- A food whose fat row is present with value 0. -/
def zero_fat_food : Food :=
  { desc_long := "Explicit zero fat", weights := [], nutrition := [⟨"FAT", 0⟩] }

/-- A food with no fat row. -/
def missing_fat_food : Food :=
  { desc_long := "No fat row", weights := [], nutrition := [] }

/-- A one-entry Unit Table: gram to gram. -/
def unit_table_demo : String → Option ℚ := fun u => if u = "g" then some 1 else none

/-- An environment whose parser reports an explicit recognized unit. -/
def env_unit : Env :=
  { parse_ingredient := fun _ => ⟨100, "g", "", "chicken breast"⟩,
    match_one_food := fun _ => some chicken_food,
    match_one_weight := fun f _ => f.weights.head?,
    unit_to_grams := unit_table_demo }

/-- The ingredient `env_unit` construction produces. -/
def ing_unit : Ingredient :=
  { amount := 100, unit := "g", measurement := "", name := "chicken breast",
    matched_food := chicken_food, weight := 100 }

/-- An environment whose parser reports a unit absent from the Unit Table. -/
def env_xyz : Env :=
  { parse_ingredient := fun _ => ⟨2, "xyz", "", "bread"⟩,
    match_one_food := fun _ => some bread_food,
    match_one_weight := fun f _ => f.weights.head?,
    unit_to_grams := unit_table_demo }

/-- An environment with no explicit unit whose matched food has no weight
rows. -/
def env_noweight : Env :=
  { parse_ingredient := fun _ => ⟨2, "", "slice", "bread"⟩,
    match_one_food := fun _ => some bread_food_nw,
    match_one_weight := fun f _ => f.weights.head?,
    unit_to_grams := unit_table_demo }

/-- A resolved ingredient weighing 100 g of `energy_food`. -/
def ing_energy : Ingredient :=
  { amount := 100, unit := "g", measurement := "", name := "energy",
    matched_food := energy_food, weight := 100 }

/-- A resolved ingredient whose food carries a zero-valued fat row. -/
def ing_zero_fat : Ingredient :=
  { amount := 100, unit := "g", measurement := "", name := "zerofat",
    matched_food := zero_fat_food, weight := 100 }

/-- A resolved ingredient whose food carries no fat row. -/
def ing_missing_fat : Ingredient :=
  { amount := 100, unit := "g", measurement := "", name := "nofat",
    matched_food := missing_fat_food, weight := 100 }

/-! Helper lemmas. -/

theorem ratFloor_eq_intFloor (q : ℚ) : (q.floor : ℤ) = ⌊q⌋ := by
  rw [Rat.floor_def', Rat.floor_def]

/-- `round2` rounds `q * 100` to the nearest integer and divides back. -/
theorem round2_eq_round (q : ℚ) : round2 q = ((round (q * 100) : ℤ) : ℚ) / 100 := by
  rw [round2, ratFloor_eq_intFloor, round_eq]

theorem round2_intCast_div (z : ℤ) : round2 ((z : ℚ) / 100) = (z : ℚ) / 100 := by
  rw [round2_eq_round, div_mul_cancel₀ _ (by norm_num : (100 : ℚ) ≠ 0), round_intCast]

/-- Rounding to 2 decimals is idempotent. -/
theorem round2_idem (q : ℚ) : round2 (round2 q) = round2 q := by
  rw [round2_eq_round q, round2_intCast_div]

theorem add_if_truthy_eq (acc : ℚ) (c : Option ℚ) :
    add_if_truthy acc c = acc + c.getD 0 := by
  cases c with
  | none => simp [add_if_truthy, truthy_float]
  | some v =>
      by_cases hv : v = 0
      · simp [add_if_truthy, truthy_float, hv]
      · simp [add_if_truthy, truthy_float, hv]

/-- The state of the `total_nutrition` dict after the guarded double loop:
each entry independently accumulates its own key's contributions. -/
theorem foldl_accumulate (l : List Ingredient) (acc : List (String × ℚ)) :
    l.foldl accumulate_ingredient acc =
      acc.map (fun kv =>
        (kv.1, l.foldl
          (fun a i => add_if_truthy a (i.calc_nutrient ((dict_lookup to_tagname kv.1).getD "")))
          kv.2)) := by
  induction l generalizing acc with
  | nil => simp
  | cons i t ih =>
      rw [List.foldl_cons, ih, accumulate_ingredient, List.map_map]
      simp

/-- The guarded per-key accumulation computes the unguarded sum: skipping a
zero contribution never changes a sum. -/
theorem foldl_add_if_truthy (l : List Ingredient) (tag : String) (a : ℚ) :
    l.foldl (fun a i => add_if_truthy a (i.calc_nutrient tag)) a =
      l.foldl (fun a i => a + (i.calc_nutrient tag).getD 0) a := by
  have h : (fun (a : ℚ) (i : Ingredient) => add_if_truthy a (i.calc_nutrient tag)) =
      fun a i => a + (i.calc_nutrient tag).getD 0 := by
    funext a i
    exact add_if_truthy_eq a (i.calc_nutrient tag)
  rw [h]

/-- The totals function in closed form: one rounded unguarded sum per
reported key, in key order. -/
theorem calculate_total_nutrition_eq (l : List Ingredient) :
    calculate_total_nutrition l =
      reported_keys.map (fun k =>
        (k, round2 (sum_nutrient l ((dict_lookup to_tagname k).getD "")),
         (dict_lookup units_table k).getD "")) := by
  rw [calculate_total_nutrition]
  simp only [foldl_accumulate, List.map_map]
  refine List.map_congr_left (fun k _ => ?_)
  simp [foldl_add_if_truthy, sum_nutrient]

theorem mapM_ok {α β : Type} (f : α → β) (xs : List α) :
    xs.mapM (fun x => (Except.ok (f x) : Except PyError β)) = Except.ok (xs.map f) := by
  induction xs with
  | nil => rfl
  | cons a t ih =>
      rw [List.mapM_cons, ih]
      rfl

/-- The totals of the single 100 g ingredient of `energy_food`. -/
theorem total_ing_energy :
    calculate_total_nutrition [ing_energy] =
      [("ENERGY", 172, "kcal"), ("FAT", 0, "g"), ("PROTEIN", 0, "g"), ("CARB", 0, "g"),
       ("SUGAR", 0, "g"), ("CHOLE", 0, "mg"), ("SODIUM", 0, "mg"), ("POTAS", 0, "mg"),
       ("FIBER", 0, "g")] := by
  rw [calculate_total_nutrition_eq]
  simp [sum_nutrient, dict_lookup, to_tagname, units_table, reported_keys,
    Ingredient.calc_nutrient, Ingredient.get_nutrient_by_tagname, ing_energy,
    energy_food, List.find?]
  norm_num [round2_eq_round, round_eq]

/-- Dividing those totals by the negative serving count `-1` silently
negates the energy amount. -/
theorem serving_neg_one_energy :
    calculate_serving_nutrition (calculate_total_nutrition [ing_energy]) (-1) =
      .ok [("ENERGY", -172, "kcal"), ("FAT", 0, "g"), ("PROTEIN", 0, "g"), ("CARB", 0, "g"),
           ("SUGAR", 0, "g"), ("CHOLE", 0, "mg"), ("SODIUM", 0, "mg"), ("POTAS", 0, "mg"),
           ("FIBER", 0, "g")] := by
  have hok : calculate_serving_nutrition (calculate_total_nutrition [ing_energy]) (-1) =
      .ok ((calculate_total_nutrition [ing_energy]).map
        (fun kt => (kt.1, round2 (kt.2.1 / ((-1 : ℤ) : ℚ)), kt.2.2))) := by
    rw [calculate_serving_nutrition]
    simp only [if_neg (by norm_num : ¬((-1 : ℤ) = 0))]
    exact mapM_ok _ _
  rw [hok, total_ing_energy]
  simp only [List.map_cons, List.map_nil]
  norm_num [round2_eq_round, round_eq]

/-- Dividing any totals map by zero servings raises `ZeroDivisionError`
(the totals map is never empty, so the division is always reached). -/
theorem serving_zero_zde (l : List Ingredient) :
    calculate_serving_nutrition (calculate_total_nutrition l) 0 =
      .error .zeroDivisionError := by
  rw [calculate_serving_nutrition, calculate_total_nutrition_eq]
  simp [reported_keys, List.mapM_cons, Except.bind]
  rfl

/-! Claim theorems. -/

/-- C1: for every successfully constructed ingredient, the weight is
derived by exactly one of the two rules, decided by whether the parsed
unit is non-empty: with a non-empty unit it is `amount * gramsPerUnit
unit`; with an empty unit it is `selectedEntry.weight * (amount /
selectedEntry.amount)` for the weight entry selected for the measurement —
never a mix. -/
theorem construct_weight_rule_exclusive (env : Env) (to_parse : String)
    (i : Ingredient) (h : Ingredient.construct env to_parse = .ok i) :
    (i.unit ≠ "" → ∃ g, env.unit_to_grams i.unit = some g ∧
      i.weight = i.amount * g) ∧
    (i.unit = "" → ∃ mw, env.match_one_weight i.matched_food i.measurement = some mw ∧
      i.weight = mw.weight * (i.amount / mw.amount)) := by
  simp only [Ingredient.construct] at h
  split at h
  · exact Except.noConfusion h
  next food hfood =>
    split at h
    next hunit =>
      split at h
      · exact Except.noConfusion h
      next grams hgrams =>
        injection h with h
        subst h
        refine ⟨fun _ => ⟨grams, hgrams, rfl⟩, fun habs => absurd habs hunit⟩
    next hunit =>
      split at h
      · exact Except.noConfusion h
      next w hw =>
        injection h with h
        subst h
        rw [get_weight] at hw
        split at hw
        · exact Except.noConfusion hw
        split at hw
        · exact Except.noConfusion hw
        next mw hmw =>
          injection hw with hw
          subst hw
          simp only [ne_eq, not_not] at hunit
          exact ⟨fun habs => absurd hunit habs, fun _ => ⟨mw, hmw, rfl⟩⟩

/-- Witness for C1: the unit-conversion branch at a concrete environment. -/
theorem construct_weight_rule_exclusive_witness :
    (ing_unit.unit ≠ "" → ∃ g, env_unit.unit_to_grams ing_unit.unit = some g ∧
      ing_unit.weight = ing_unit.amount * g) ∧
    (ing_unit.unit = "" → ∃ mw,
      env_unit.match_one_weight ing_unit.matched_food ing_unit.measurement = some mw ∧
      ing_unit.weight = mw.weight * (ing_unit.amount / mw.amount)) :=
  construct_weight_rule_exclusive env_unit "100 g of chicken breast" ing_unit
    (by simp [Ingredient.construct, env_unit, unit_table_demo, ing_unit])

/-- Counterexample for C6: with a parsed unit absent from the Unit Table,
construction fails with a bare `KeyError` carrying only the unit symbol;
the error does not carry the original raw text. -/
theorem unknown_unit_counterexample :
    Ingredient.construct env_xyz "2 xyz of bread" = .error (.keyError "xyz") ∧
    error_raw_text (.keyError "xyz") = none := ⟨rfl, rfl⟩

/-- C6 as amended: with a matched food and a non-empty parsed unit absent
from the Unit Table, construction fails (no ingredient object results)
with a `KeyError` carrying only the unit symbol, not the original raw
text. -/
theorem unknown_unit_keyerror (env : Env) (to_parse : String) (f : Food)
    (hf : env.match_one_food (env.parse_ingredient to_parse).name = some f)
    (hu : (env.parse_ingredient to_parse).unit ≠ "")
    (hk : env.unit_to_grams (env.parse_ingredient to_parse).unit = none) :
    Ingredient.construct env to_parse =
      .error (.keyError (env.parse_ingredient to_parse).unit) ∧
    error_raw_text (.keyError (env.parse_ingredient to_parse).unit) = none := by
  refine ⟨?_, rfl⟩
  simp only [Ingredient.construct, hf, hk, if_pos hu]

/-- Witness for the amended C6 at a concrete environment. -/
theorem unknown_unit_keyerror_witness :
    Ingredient.construct env_xyz "2 xyz of bread" =
      .error (.keyError (env_xyz.parse_ingredient "2 xyz of bread").unit) ∧
    error_raw_text (.keyError (env_xyz.parse_ingredient "2 xyz of bread").unit) = none :=
  unknown_unit_keyerror env_xyz "2 xyz of bread" bread_food rfl (by decide) rfl

/-- Counterexample for C7: with an empty parsed unit and a matched food
with zero weight rows, construction fails with an `IngredientError` whose
context slot holds the matched food object — not the original raw text. -/
theorem noweight_counterexample :
    Ingredient.construct env_noweight "2 slices of bread" =
      .error (.ingredientError (.food bread_food_nw)
        "This food does not have any FoodWeight objects.") ∧
    error_raw_text (.ingredientError (.food bread_food_nw)
        "This food does not have any FoodWeight objects.") = none := ⟨rfl, rfl⟩

/-- C7 as amended: with an empty parsed unit and a matched food with zero
weight rows, construction fails with a NoWeightData `IngredientError`
carrying a human-readable reason and, in its context slot, the matched
food object rather than the original raw text. -/
theorem noweight_ingredienterror (env : Env) (to_parse : String) (f : Food)
    (hf : env.match_one_food (env.parse_ingredient to_parse).name = some f)
    (hu : (env.parse_ingredient to_parse).unit = "")
    (hw : f.weights = []) :
    Ingredient.construct env to_parse =
      .error (.ingredientError (.food f)
        "This food does not have any FoodWeight objects.") ∧
    error_raw_text (.ingredientError (.food f)
        "This food does not have any FoodWeight objects.") = none := by
  refine ⟨?_, rfl⟩
  have hnu : ¬((env.parse_ingredient to_parse).unit ≠ "") := by simp [hu]
  simp only [Ingredient.construct, hf, if_neg hnu, get_weight, if_pos hw]

/-- Witness for the amended C7 at a concrete environment. -/
theorem noweight_ingredienterror_witness :
    Ingredient.construct env_noweight "2 slices of bread" =
      .error (.ingredientError (.food bread_food_nw)
        "This food does not have any FoodWeight objects.") ∧
    error_raw_text (.ingredientError (.food bread_food_nw)
        "This food does not have any FoodWeight objects.") = none :=
  noweight_ingredienterror env_noweight "2 slices of bread" bread_food_nw rfl rfl rfl

/-- C2: for every ingredient list, the totals map has exactly the reported
keys, each with amount equal to the 2-decimal rounding of the sum of
`calc_nutrient` of its fixed tagname over the list with absent values
treated as 0, paired with the key's fixed unit (kcal for energy, g for
macro-nutrients, mg for cholesterol, sodium and potassium). -/
theorem calculate_total_nutrition_spec (l : List Ingredient) :
    calculate_total_nutrition l =
      [("ENERGY", round2 (sum_nutrient l "ENERC_KCAL"), "kcal"),
       ("FAT", round2 (sum_nutrient l "FAT"), "g"),
       ("PROTEIN", round2 (sum_nutrient l "PROCNT"), "g"),
       ("CARB", round2 (sum_nutrient l "CHOCDF"), "g"),
       ("SUGAR", round2 (sum_nutrient l "SUGAR"), "g"),
       ("CHOLE", round2 (sum_nutrient l "CHOLE"), "mg"),
       ("SODIUM", round2 (sum_nutrient l "NA"), "mg"),
       ("POTAS", round2 (sum_nutrient l "K"), "mg"),
       ("FIBER", round2 (sum_nutrient l "FIBTG"), "g")] := by
  rw [calculate_total_nutrition_eq]
  rfl

/-- C8: the totals of the empty ingredient list contain every reported key
with amount 0 and its fixed unit. -/
theorem total_nutrition_empty :
    calculate_total_nutrition [] =
      [("ENERGY", 0, "kcal"), ("FAT", 0, "g"), ("PROTEIN", 0, "g"), ("CARB", 0, "g"),
       ("SUGAR", 0, "g"), ("CHOLE", 0, "mg"), ("SODIUM", 0, "mg"), ("POTAS", 0, "mg"),
       ("FIBER", 0, "g")] := by
  rw [calculate_total_nutrition_eq]
  show [("ENERGY", round2 0, "kcal"), ("FAT", round2 0, "g"), ("PROTEIN", round2 0, "g"),
        ("CARB", round2 0, "g"), ("SUGAR", round2 0, "g"), ("CHOLE", round2 0, "mg"),
        ("SODIUM", round2 0, "mg"), ("POTAS", round2 0, "mg"), ("FIBER", round2 0, "g")] = _
  norm_num [round2_eq_round]

/-- C10: the truthiness-guarded accumulation (which skips contributions
computing to exactly 0 by the same test that skips absent values) yields
totals equal to the unguarded sum that adds every non-absent contribution;
consequently a zero-valued nutrient row and a missing nutrient row are
indistinguishable in the returned totals, shown on a concrete pair. -/
theorem guarded_eq_unguarded :
    (∀ l, calculate_total_nutrition l = calculate_total_nutrition_unguarded l) ∧
    calculate_total_nutrition [ing_zero_fat] = calculate_total_nutrition [ing_missing_fat] := by
  constructor
  · intro l
    rw [calculate_total_nutrition_eq]
    rfl
  · rw [calculate_total_nutrition_eq, calculate_total_nutrition_eq]
    refine List.map_congr_left fun k hk => ?_
    fin_cases hk <;>
      simp [sum_nutrient, dict_lookup, to_tagname, Ingredient.calc_nutrient,
        Ingredient.get_nutrient_by_tagname, ing_zero_fat, ing_missing_fat,
        zero_fat_food, missing_fat_food, List.find?]

/-- C3: for every totals map produced by `calculate_total_nutrition` and
every integer `n ≥ 1`, `calculate_serving_nutrition` returns, for every
reported key in place, the amount rounded to 2 decimals of the total
amount divided by `n`, paired with the same unit. -/
theorem serving_nutrition_divides (l : List Ingredient) (n : ℤ) (h : 1 ≤ n) :
    calculate_serving_nutrition (calculate_total_nutrition l) n =
      .ok ((calculate_total_nutrition l).map
        (fun kt => (kt.1, round2 (kt.2.1 / (n : ℚ)), kt.2.2))) := by
  have hn : ¬(n = 0) := by omega
  rw [calculate_serving_nutrition]
  simp only [if_neg hn]
  exact mapM_ok _ _

/-- Witness for C3 at the empty totals and 2 servings. -/
theorem serving_nutrition_divides_witness :
    calculate_serving_nutrition (calculate_total_nutrition []) 2 =
      .ok ((calculate_total_nutrition []).map
        (fun kt => (kt.1, round2 (kt.2.1 / ((2 : ℤ) : ℚ)), kt.2.2))) :=
  serving_nutrition_divides [] 2 (by norm_num)

/-- C9: for every totals map produced by `calculate_total_nutrition`,
dividing by one serving returns the totals unchanged, amounts and units. -/
theorem serving_nutrition_one (l : List Ingredient) :
    calculate_serving_nutrition (calculate_total_nutrition l) 1 =
      .ok (calculate_total_nutrition l) := by
  rw [calculate_serving_nutrition]
  simp only [if_neg (by norm_num : ¬((1 : ℤ) = 0))]
  rw [mapM_ok]
  congr 1
  rw [calculate_total_nutrition_eq, List.map_map]
  refine List.map_congr_left fun k _ => ?_
  simp [round2_idem]

/-- Counterexample for C5: the negative serving count `-1` is accepted and
the function silently returns a negated amount instead of signalling an
error. -/
theorem serving_negative_counterexample :
    ((-1 : ℤ) ≤ 0) ∧
    calculate_serving_nutrition (calculate_total_nutrition [ing_energy]) (-1) =
      .ok [("ENERGY", -172, "kcal"), ("FAT", 0, "g"), ("PROTEIN", 0, "g"), ("CARB", 0, "g"),
           ("SUGAR", 0, "g"), ("CHOLE", 0, "mg"), ("SODIUM", 0, "mg"), ("POTAS", 0, "mg"),
           ("FIBER", 0, "g")] :=
  ⟨by norm_num, serving_neg_one_energy⟩

/-- C5 as amended: `calculate_serving_nutrition` performs no validation of
`servings`: with zero servings the division raises a bare
`ZeroDivisionError` (not a structured InvalidServings error), and for
every totals map and every negative serving count it does not signal an
error but silently returns each rounded amount divided by the negative
count — concretely, `-1` serving on a 172 kcal total yields −172 kcal. -/
theorem serving_nonpositive_behavior :
    (∀ l, calculate_serving_nutrition (calculate_total_nutrition l) 0 =
      .error .zeroDivisionError) ∧
    (∀ (l : List Ingredient) (n : ℤ), n < 0 →
      calculate_serving_nutrition (calculate_total_nutrition l) n =
        .ok ((calculate_total_nutrition l).map
          (fun kt => (kt.1, round2 (kt.2.1 / (n : ℚ)), kt.2.2)))) ∧
    calculate_serving_nutrition (calculate_total_nutrition [ing_energy]) (-1) =
      .ok [("ENERGY", -172, "kcal"), ("FAT", 0, "g"), ("PROTEIN", 0, "g"), ("CARB", 0, "g"),
           ("SUGAR", 0, "g"), ("CHOLE", 0, "mg"), ("SODIUM", 0, "mg"), ("POTAS", 0, "mg"),
           ("FIBER", 0, "g")] := by
  refine ⟨serving_zero_zde, fun l n hn => ?_, serving_neg_one_energy⟩
  have hne : ¬(n = 0) := by omega
  rw [calculate_serving_nutrition]
  simp only [if_neg hne]
  exact mapM_ok _ _

/-- Witness for the amended C5: the universal negative-servings conjunct
applied at one totals map and `-1` serving. -/
theorem serving_nonpositive_behavior_witness :
    calculate_serving_nutrition (calculate_total_nutrition [ing_energy]) (-1) =
      .ok ((calculate_total_nutrition [ing_energy]).map
        (fun kt => (kt.1, round2 (kt.2.1 / ((-1 : ℤ) : ℚ)), kt.2.2))) :=
  serving_nonpositive_behavior.2.1 [ing_energy] (-1) (by norm_num)

/-- C4: for every resolved ingredient and tagname, when the matched food
has no nutrient row for the tagname `calc_nutrient` returns `none` (and,
being total, never raises); when it has the row (unique per the data-model
invariant) it returns the per-100g value divided by 100 times the
ingredient weight. -/
theorem calc_nutrient_present_absent (i : Ingredient) (t : String) :
    ((∀ n, n ∈ i.matched_food.nutrition → n.tagname ≠ t) → i.calc_nutrient t = none) ∧
    (∀ n, n ∈ i.matched_food.nutrition → n.tagname = t →
      (∀ m, m ∈ i.matched_food.nutrition → m.tagname = t → m = n) →
      i.calc_nutrient t = some (n.value / 100 * i.weight)) := by
  constructor
  · intro habs
    have hnone : i.matched_food.nutrition.find? (fun n => n.tagname == t) = none := by
      rw [List.find?_eq_none]
      intro x hx
      simp [habs x hx]
    simp [Ingredient.calc_nutrient, Ingredient.get_nutrient_by_tagname, hnone]
  · intro n hn ht huniq
    have hsome : (i.matched_food.nutrition.find? (fun x => x.tagname == t)).isSome := by
      rw [List.find?_isSome]
      exact ⟨n, hn, by simp [ht]⟩
    obtain ⟨m, hm⟩ := Option.isSome_iff_exists.mp hsome
    have hpm : m.tagname = t := by simpa using List.find?_some hm
    have hmem : m ∈ i.matched_food.nutrition := List.mem_of_find?_eq_some hm
    have hmn : m = n := huniq m hmem hpm
    subst hmn
    simp [Ingredient.calc_nutrient, Ingredient.get_nutrient_by_tagname, hm]

/-- Witness for C4: both branches at a concrete ingredient. -/
theorem calc_nutrient_present_absent_witness :
    ing_energy.calc_nutrient "ENERC_KCAL" = some ((172 : ℚ) / 100 * 100) ∧
    ing_energy.calc_nutrient "SUGAR" = none :=
  ⟨(calc_nutrient_present_absent ing_energy "ENERC_KCAL").2 ⟨"ENERC_KCAL", 172⟩
      (by simp [ing_energy, energy_food]) rfl
      (by intro m hm _; simpa [ing_energy, energy_food] using hm),
   (calc_nutrient_present_absent ing_energy "SUGAR").1
      (by intro n hn; simp [ing_energy, energy_food] at hn; simp [hn])⟩

end Nutrigo
